import Mathlib

/-!
Shallow embedding of the campus resource-booking application's core:
the booking data-access layer (`src/data_access/bookings_dao.py`), the
threaded-messaging data-access layer (`src/data_access/messages_dao.py`)
and the relevant request handlers (`src/controllers/bookings.py`,
`src/controllers/messaging.py`, `src/controllers/admin.py`).

Modelling conventions:
* SQL datetime strings (ISO-8601, compared lexicographically by SQLite,
  which coincides with chronological order) are embedded as `Nat` instants.
* The SQLite store is explicit state: a `BookingsDb` / `MessagesDb` record
  passed in and returned.  `CURRENT_TIMESTAMP` is an explicit `now : Nat`
  argument.
* Python exceptions become `Except` results; a raised exception leaves the
  returned state unchanged exactly where the source performs no write.
* Python truthiness of an optional integer (`if exclude_booking_id:`)
  is embedded by `truthy`, which is false for `none` and for `some 0`.
-/

/-- Python truthiness of an `Optional[int]`: `None` and `0` are falsy. -/
def truthy : Option Nat → Bool
  | none => false
  | some n => n != 0

/-- Booking status values, `status ∈ {pending, approved, rejected, cancelled, completed}`. -/
inductive BookingStatus
  | pending
  | approved
  | rejected
  | cancelled
  | completed
deriving DecidableEq

/-- The `Booking` entity (`src/models/entities.py`). -/
structure Booking where
  booking_id : Nat
  resource_id : Nat
  requester_id : Nat
  start_datetime : Nat
  end_datetime : Nat
  status : BookingStatus
  approval_notes : Option String
  created_at : Nat
  updated_at : Nat
deriving DecidableEq

/-- A row of the append-only `admin_logs` audit table. -/
structure AdminLog where
  admin_id : Nat
  action : String
  target_table : String
  details : Option String
deriving DecidableEq

/-- The bookings side of the SQLite store: the `bookings` table, the rowid
counter used for `cursor.lastrowid`, and the `admin_logs` table. -/
structure BookingsDb where
  bookings : List Booking
  next_booking_id : Nat
  admin_logs : List AdminLog
deriving DecidableEq

/-- Store well-formedness: SQLite-assigned rowids are positive, below the
next rowid to be assigned (hence pairwise fresh against insertions). -/
def BookingsDb.WF (db : BookingsDb) : Prop :=
  ∀ b ∈ db.bookings, 0 < b.booking_id ∧ b.booking_id < db.next_booking_id

instance (db : BookingsDb) : Decidable db.WF :=
  inferInstanceAs (Decidable (∀ b ∈ db.bookings, _ ∧ _))

/-- The only domain failure raised by `bookings_dao.create_booking`
(`ValueError("Booking conflicts with an existing reservation.")`). -/
inductive BookingError
  | conflict
deriving DecidableEq

/-- `bookings_dao.has_conflict`: any stored booking on the resource with
status in {pending, approved} satisfying
`NOT (end_datetime <= start OR start_datetime >= end)`, optionally
excluding one booking id (the exclusion clause is only added when the
Python optional is truthy). -/
def has_conflict (db : BookingsDb) (resource_id start_value end_value : Nat)
    (exclude_booking_id : Option Nat) : Bool :=
  db.bookings.any fun b =>
    b.resource_id == resource_id &&
    (b.status == BookingStatus.pending || b.status == BookingStatus.approved) &&
    !(decide (b.end_datetime ≤ start_value) || decide (b.start_datetime ≥ end_value)) &&
    (if truthy exclude_booking_id then b.booking_id != exclude_booking_id.getD 0 else true)

/-- `bookings_dao.get_booking_by_id`: `SELECT * FROM bookings WHERE booking_id = ?`. -/
def get_booking_by_id (db : BookingsDb) (booking_id : Nat) : Option Booking :=
  db.bookings.find? fun b => b.booking_id == booking_id

/-- `bookings_dao.create_booking`: raise on conflict, otherwise insert with
status `pending`/`approved` according to `requires_approval` and re-read
the inserted row by `cursor.lastrowid`.  The second component is the store
after the call. -/
def create_booking (db : BookingsDb) (now : Nat)
    (resource_id requester_id start_value end_value : Nat)
    (requires_approval : Bool) (approval_notes : Option String) :
    Except BookingError (Option Booking) × BookingsDb :=
  if has_conflict db resource_id start_value end_value none then
    (.error .conflict, db)
  else
    let status := if requires_approval then BookingStatus.pending else BookingStatus.approved
    let row : Booking :=
      { booking_id := db.next_booking_id
        resource_id := resource_id
        requester_id := requester_id
        start_datetime := start_value
        end_datetime := end_value
        status := status
        approval_notes := approval_notes
        created_at := now
        updated_at := now }
    let db2 : BookingsDb :=
      { db with bookings := db.bookings ++ [row], next_booking_id := db.next_booking_id + 1 }
    (.ok (get_booking_by_id db2 db.next_booking_id), db2)

/-- `bookings_dao._log_admin_action`: append a row to `admin_logs`. -/
def log_admin_action (db : BookingsDb) (admin_id : Nat) (target_table action : String) :
    BookingsDb :=
  { db with admin_logs := db.admin_logs ++
      [{ admin_id := admin_id, action := action, target_table := target_table, details := none }] }

/-- The row effect of the conditional update
`SET status='approved', approval_notes=?, updated_at=now WHERE booking_id=? AND status='pending'`. -/
def approve_update (now booking_id : Nat) (notes : Option String) (b : Booking) : Booking :=
  if b.booking_id = booking_id ∧ b.status = BookingStatus.pending then
    { b with status := BookingStatus.approved, approval_notes := notes, updated_at := now }
  else b

/-- The row effect of the conditional update
`SET status='rejected', approval_notes=?, updated_at=now WHERE booking_id=? AND status='pending'`. -/
def reject_update (now booking_id : Nat) (notes : Option String) (b : Booking) : Booking :=
  if b.booking_id = booking_id ∧ b.status = BookingStatus.pending then
    { b with status := BookingStatus.rejected, approval_notes := notes, updated_at := now }
  else b

/-- The row effect of the unconditional update
`SET status=?, updated_at=now WHERE booking_id=?` used by cancel/complete. -/
def status_update (status : BookingStatus) (now booking_id : Nat) (b : Booking) : Booking :=
  if b.booking_id = booking_id then { b with status := status, updated_at := now } else b

/-- `bookings_dao.approve_booking`: the conditional update applied to every
row, then an audit-log append. -/
def approve_booking (db : BookingsDb) (now booking_id approver_id : Nat)
    (notes : Option String) : BookingsDb :=
  log_admin_action
    { db with bookings := db.bookings.map (approve_update now booking_id notes) }
    approver_id "bookings" ("Approved booking " ++ toString booking_id)

/-- `bookings_dao.reject_booking`: symmetric conditional update to `rejected`. -/
def reject_booking (db : BookingsDb) (now booking_id approver_id : Nat)
    (notes : Option String) : BookingsDb :=
  log_admin_action
    { db with bookings := db.bookings.map (reject_update now booking_id notes) }
    approver_id "bookings" ("Rejected booking " ++ toString booking_id)

/-- `bookings_dao.cancel_booking`: unconditional update
`SET status='cancelled', updated_at=now WHERE booking_id=?`. -/
def cancel_booking (db : BookingsDb) (now booking_id : Nat) : BookingsDb :=
  { db with bookings := db.bookings.map (status_update BookingStatus.cancelled now booking_id) }

/-- `bookings_dao.complete_booking`: unconditional update
`SET status='completed', updated_at=now WHERE booking_id=?`. -/
def complete_booking (db : BookingsDb) (now booking_id : Nat) : BookingsDb :=
  { db with bookings := db.bookings.map (status_update BookingStatus.completed now booking_id) }

/-- The `Message` entity (`src/models/entities.py`). -/
structure Message where
  message_id : Nat
  thread_id : Nat
  sender_id : Nat
  receiver_id : Nat
  content : String
  timestamp : Nat
deriving DecidableEq

/-- The `Thread` entity (`src/models/entities.py`); `context_type` is a raw
string in the store, validated against {resource, booking, general} only at
thread-creation time by the controller. -/
structure Thread where
  thread_id : Nat
  context_type : String
  context_id : Option Nat
  created_by : Nat
  created_at : Nat
deriving DecidableEq

/-- The messaging side of the SQLite store.  `provisioned = false` embeds the
state in which the `threads`/`messages` tables are missing, where every query
raises `sqlite3.OperationalError`, converted by the DAO into
`MessagingSchemaError`. -/
structure MessagesDb where
  provisioned : Bool
  threads : List Thread
  messages : List Message
  next_thread_id : Nat
  next_message_id : Nat
deriving DecidableEq

/-- `messages_dao.MessagingSchemaError`: the distinguished typed error raised
when the threaded-messaging tables are unavailable. -/
inductive MessagingError
  | schemaUnavailable
deriving DecidableEq

/-- Timestamp order on messages (`ORDER BY timestamp ASC`). -/
def tsLE (a b : Message) : Prop := a.timestamp ≤ b.timestamp

instance : DecidableRel tsLE := fun a b => Nat.decLe a.timestamp b.timestamp

instance : IsTotal Message tsLE := ⟨fun a b => Nat.le_total a.timestamp b.timestamp⟩

instance : IsTrans Message tsLE := ⟨fun _ _ _ => Nat.le_trans⟩

/-- `messages_dao.get_thread`: `SELECT * FROM threads WHERE thread_id = ?`. -/
def get_thread (db : MessagesDb) (thread_id : Nat) : Except MessagingError (Option Thread) :=
  if db.provisioned then .ok (db.threads.find? fun t => t.thread_id == thread_id)
  else .error .schemaUnavailable

/-- `messages_dao.get_message_by_id`: `SELECT * FROM messages WHERE message_id = ?`. -/
def get_message_by_id (db : MessagesDb) (message_id : Nat) :
    Except MessagingError (Option Message) :=
  if db.provisioned then .ok (db.messages.find? fun m => m.message_id == message_id)
  else .error .schemaUnavailable

/-- `messages_dao.get_messages`: all messages of a thread,
`ORDER BY timestamp ASC`. -/
def get_messages (db : MessagesDb) (thread_id : Nat) :
    Except MessagingError (List Message) :=
  if db.provisioned then
    .ok (List.insertionSort tsLE (db.messages.filter fun m => m.thread_id == thread_id))
  else .error .schemaUnavailable

/-- `messages_dao.get_messages_since`: messages of a thread with
`timestamp > ?`, `ORDER BY timestamp ASC`. -/
def get_messages_since (db : MessagesDb) (thread_id since : Nat) :
    Except MessagingError (List Message) :=
  if db.provisioned then
    .ok (List.insertionSort tsLE
      (db.messages.filter fun m => m.thread_id == thread_id && decide (since < m.timestamp)))
  else .error .schemaUnavailable

/-- `messages_dao.post_message`: insert the row and re-read it by
`cursor.lastrowid`; no validation of `content` is performed here.  The second
component is the store after the call. -/
def post_message (db : MessagesDb) (now thread_id sender_id receiver_id : Nat)
    (content : String) : Except MessagingError (Option Message) × MessagesDb :=
  if db.provisioned then
    let row : Message :=
      { message_id := db.next_message_id
        thread_id := thread_id
        sender_id := sender_id
        receiver_id := receiver_id
        content := content
        timestamp := now }
    let db2 : MessagesDb :=
      { db with messages := db.messages ++ [row], next_message_id := db.next_message_id + 1 }
    (get_message_by_id db2 db.next_message_id, db2)
  else (.error .schemaUnavailable, db)

/-- SQL `MAX(m.timestamp)` over a group of messages (`NULL` on the empty group). -/
def max_timestamp : List Message → Option Nat
  | [] => none
  | m :: ms => some ((ms.map Message.timestamp).foldl max m.timestamp)

/-- One row of `list_threads_for_admin` / `list_threads_for_user`:
`t.*, MAX(m.timestamp) AS last_activity, COUNT(m.message_id) AS message_count`. -/
structure ThreadSummary where
  thread : Thread
  last_activity : Option Nat
  message_count : Nat
deriving DecidableEq

/-- The SQL ordering key `ORDER BY (last_activity IS NULL), last_activity DESC`
on optional activity stamps: non-null before null, larger stamps first. -/
def actLE : Option Nat → Option Nat → Prop
  | some x, some y => y ≤ x
  | some _, none => True
  | none, some _ => False
  | none, none => True

instance : DecidableRel actLE := fun a b =>
  match a, b with
  | some x, some y => Nat.decLe y x
  | some _, none => .isTrue trivial
  | none, some _ => .isFalse fun h => h
  | none, none => .isTrue trivial

instance : IsTotal (Option Nat) actLE :=
  ⟨fun a b =>
    match a, b with
    | some x, some y => (Nat.le_total y x).imp id id
    | some _, none => Or.inl trivial
    | none, some _ => Or.inr trivial
    | none, none => Or.inl trivial⟩

instance : IsTrans (Option Nat) actLE :=
  ⟨by
    intro a b c hab hbc
    cases a <;> cases b <;> cases c <;> simp_all [actLE] <;> omega⟩

/-- Thread-summary ordering by last activity. -/
def activityLE (a b : ThreadSummary) : Prop := actLE a.last_activity b.last_activity

instance : DecidableRel activityLE := fun a b =>
  inferInstanceAs (Decidable (actLE a.last_activity b.last_activity))

instance : IsTotal ThreadSummary activityLE :=
  ⟨fun a b => IsTotal.total (r := actLE) a.last_activity b.last_activity⟩

instance : IsTrans ThreadSummary activityLE :=
  ⟨fun a b c hab hbc =>
    IsTrans.trans (r := actLE) a.last_activity b.last_activity c.last_activity hab hbc⟩

/-- `messages_dao.list_threads_for_admin`: every thread (LEFT JOIN) with its
full-group last activity and message count, ordered by recent activity,
null-activity groups last. -/
def list_threads_for_admin (db : MessagesDb) :
    Except MessagingError (List ThreadSummary) :=
  if db.provisioned then
    .ok (List.insertionSort activityLE (db.threads.map fun t =>
      let ms := db.messages.filter fun m => m.thread_id == t.thread_id
      { thread := t, last_activity := max_timestamp ms, message_count := ms.length }))
  else .error .schemaUnavailable

/-- The JOIN-plus-WHERE row condition of `list_threads_for_user`:
`m.thread_id = t.thread_id AND (m.sender_id = ? OR m.receiver_id = ?)`. -/
def user_msg_in_thread (user_id : Nat) (t : Thread) (m : Message) : Bool :=
  m.thread_id == t.thread_id && (m.sender_id == user_id || m.receiver_id == user_id)

/-- The per-thread group of `list_threads_for_user`: because the WHERE clause
filters the joined rows before `GROUP BY`, the aggregates range over the
user's own messages only, and a thread with no such message yields no group. -/
def user_thread_summary (db : MessagesDb) (user_id : Nat) (t : Thread) :
    Option ThreadSummary :=
  if (db.messages.filter (user_msg_in_thread user_id t)).isEmpty then none
  else some
    { thread := t
      last_activity := max_timestamp (db.messages.filter (user_msg_in_thread user_id t))
      message_count := (db.messages.filter (user_msg_in_thread user_id t)).length }

/-- `messages_dao.list_threads_for_user`: the surviving per-thread groups,
ordered by their (user-scoped) last activity, null groups last. -/
def list_threads_for_user (db : MessagesDb) (user_id : Nat) :
    Except MessagingError (List ThreadSummary) :=
  if db.provisioned then
    .ok (List.insertionSort activityLE (db.threads.filterMap (user_thread_summary db user_id)))
  else .error .schemaUnavailable

/-- The `Resource` entity restricted to the fields the embedded operations
read (`resource_id`, `owner_id`, `requires_approval`, `status`); the catalog
is an external collaborator and its remaining fields are never consulted by
the booking or messaging code modelled here. -/
structure Resource where
  resource_id : Nat
  owner_id : Nat
  requires_approval : Bool
  status : String
deriving DecidableEq

/-- `resources_dao.get_resource_by_id`: lookup by id; unless
`include_unpublished`, only rows with `status = 'published'` are visible. -/
def get_resource_by_id (resources : List Resource) (resource_id : Nat)
    (include_unpublished : Bool) : Option Resource :=
  resources.find? fun r =>
    r.resource_id == resource_id && (include_unpublished || r.status == "published")

/-- The store visible to the request handlers: messaging tables, booking
tables, and the external resource catalog. -/
structure Env where
  msg : MessagesDb
  book : BookingsDb
  resources : List Resource
deriving DecidableEq

/-- Controller-level failures: a propagated `MessagingSchemaError`, or a
Flask `abort(404)`. -/
inductive CtrlError
  | schemaUnavailable
  | notFound
deriving DecidableEq

/-- `controllers/messaging._thread_participants`: historical senders and
receivers of the thread's messages, plus the resource owner for a
`resource`-context thread and the booking requester and resource owner for a
`booking`-context thread (each added only when the lookup succeeds; the
context-id guard follows Python truthiness). -/
def thread_participants (env : Env) (thread_id : Nat) :
    Except CtrlError (Finset Nat) :=
  match get_thread env.msg thread_id with
  | .error _ => .error .schemaUnavailable
  | .ok none => .error .notFound
  | .ok (some thread) =>
    match get_messages env.msg thread_id with
    | .error _ => .error .schemaUnavailable
    | .ok messages =>
      let participants :=
        (messages.map Message.sender_id).toFinset ∪ (messages.map Message.receiver_id).toFinset
      if thread.context_type = "resource" ∧ truthy thread.context_id = true then
        match get_resource_by_id env.resources (thread.context_id.getD 0) true with
        | some resource => .ok (insert resource.owner_id participants)
        | none => .ok participants
      else if thread.context_type = "booking" ∧ truthy thread.context_id = true then
        match get_booking_by_id env.book (thread.context_id.getD 0) with
        | some booking =>
          let withRequester := insert booking.requester_id participants
          match get_resource_by_id env.resources booking.resource_id true with
          | some resource => .ok (insert resource.owner_id withRequester)
          | none => .ok withRequester
        | none => .ok participants
      else .ok participants

/-- Outcomes of the booking-creation request handler. -/
inductive CreateOutcome
  | notFound
  | forbidden
  | invalidInterval
  | conflict
  | success
deriving DecidableEq

/-- `controllers/bookings.create`: resolve the resource (404 when absent or
archived, 403 on a draft not owned by a non-admin caller), reject
`start >= end` with a validation message before calling the engine, then
delegate to `create_booking` with the resource's approval flag, mapping its
`ValueError` to a conflict warning. -/
def bookings_create (env : Env) (now current_user_id : Nat) (is_admin : Bool)
    (resource_id start_value end_value : Nat) : CreateOutcome × BookingsDb :=
  match get_resource_by_id env.resources resource_id true with
  | none => (.notFound, env.book)
  | some resource =>
    if resource.status = "archived" then (.notFound, env.book)
    else if resource.status = "draft" ∧ resource.owner_id ≠ current_user_id ∧ is_admin = false then
      (.forbidden, env.book)
    else if start_value ≥ end_value then (.invalidInterval, env.book)
    else
      match create_booking env.book now resource_id current_user_id start_value end_value
        resource.requires_approval
        (if resource.requires_approval = false then some "Auto-approved" else none) with
      | (.error _, db2) => (.conflict, db2)
      | (.ok _, db2) => (.success, db2)

/-- `controllers/messaging.MessageForm` validation: `InputRequired()` (the
submitted content must be non-empty) and `Length(max=2000)`. -/
def message_form_validate (content : String) : Bool :=
  content != "" && content.length ≤ 2000

/-- Outcomes of the thread-reply request handler. -/
inductive ReplyOutcome
  | schemaWarning
  | notFound
  | forbidden
  | emptyThreadError
  | formInvalid
  | sent
deriving DecidableEq

/-- `controllers/messaging.thread` (POST): guard access via the derived
participants, load the history, and only when the form validates append a
reply addressed to the counterparty of the last message.  The second
component is the messaging store after the call. -/
def messaging_thread_post (env : Env) (now current_user_id : Nat) (is_admin : Bool)
    (thread_id : Nat) (content : String) : ReplyOutcome × MessagesDb :=
  match get_thread env.msg thread_id with
  | .error _ => (.schemaWarning, env.msg)
  | .ok none => (.notFound, env.msg)
  | .ok (some _) =>
    match thread_participants env thread_id with
    | .error .schemaUnavailable => (.schemaWarning, env.msg)
    | .error .notFound => (.notFound, env.msg)
    | .ok participants =>
      if current_user_id ∉ participants ∧ is_admin = false then (.forbidden, env.msg)
      else
        match get_messages env.msg thread_id with
        | .error _ => (.schemaWarning, env.msg)
        | .ok messages =>
          if message_form_validate content then
            match messages.getLast? with
            | none => (.emptyThreadError, env.msg)
            | some last_message =>
              let recipient :=
                if last_message.sender_id = current_user_id then last_message.receiver_id
                else last_message.sender_id
              match post_message env.msg now thread_id current_user_id recipient content with
              | (.error _, db2) => (.schemaWarning, db2)
              | (.ok _, db2) => (.sent, db2)
          else (.formInvalid, env.msg)

/-- `controllers/admin.dashboard`, thread section: `list_threads_for_admin`
guarded by an exception handler that flashes a warning and degrades to an
empty list.  The boolean records whether the warning was flashed. -/
def admin_dashboard_threads (db : MessagesDb) : List ThreadSummary × Bool :=
  match list_threads_for_admin db with
  | .ok rows => (rows, false)
  | .error _ => ([], true)

/-- Fixture: an approved booking of resource 1 over the half-open slot [10, 20). -/
def exBooking1 : Booking :=
  { booking_id := 1, resource_id := 1, requester_id := 7, start_datetime := 10,
    end_datetime := 20, status := BookingStatus.approved, approval_notes := none,
    created_at := 0, updated_at := 0 }

/-- Fixture: a pending booking of resource 1 over [30, 40). -/
def exBooking2 : Booking :=
  { booking_id := 2, resource_id := 1, requester_id := 8, start_datetime := 30,
    end_datetime := 40, status := BookingStatus.pending, approval_notes := none,
    created_at := 0, updated_at := 0 }

/-- Fixture: a completed (terminal) booking of resource 2 over [50, 60). -/
def exBooking3 : Booking :=
  { booking_id := 3, resource_id := 2, requester_id := 8, start_datetime := 50,
    end_datetime := 60, status := BookingStatus.completed, approval_notes := some "done",
    created_at := 0, updated_at := 0 }

/-- Fixture: a bookings store holding the three bookings above. -/
def exDb1 : BookingsDb :=
  { bookings := [exBooking1, exBooking2, exBooking3], next_booking_id := 4, admin_logs := [] }

/-- Fixture: a freshly initialised empty bookings store. -/
def emptyBookingsDb : BookingsDb :=
  { bookings := [], next_booking_id := 1, admin_logs := [] }

/-- Fixture: a published resource owned by user 9 that requires approval. -/
def exResource1 : Resource :=
  { resource_id := 1, owner_id := 9, requires_approval := true, status := "published" }

/-- Fixture: a booking-context thread about booking 1. -/
def exThreadBooking : Thread :=
  { thread_id := 1, context_type := "booking", context_id := some 1, created_by := 7,
    created_at := 0 }

/-- Fixture: a general-context thread. -/
def exThreadGen : Thread :=
  { thread_id := 1, context_type := "general", context_id := none, created_by := 1,
    created_at := 0 }

/-- Fixture: a message between users 3 and 4 in thread 1. -/
def exMsgBooking : Message :=
  { message_id := 1, thread_id := 1, sender_id := 3, receiver_id := 4, content := "hi",
    timestamp := 10 }

/-- Fixture: a message from user 1 to user 2 in thread 1 at instant 10. -/
def exMsgA : Message :=
  { message_id := 1, thread_id := 1, sender_id := 1, receiver_id := 2, content := "a",
    timestamp := 10 }

/-- Fixture: a later message from user 2 to user 3 in thread 1 at instant 20. -/
def exMsgB : Message :=
  { message_id := 2, thread_id := 1, sender_id := 2, receiver_id := 3, content := "b",
    timestamp := 20 }

/-- Fixture: a provisioned messaging store with the booking-context thread. -/
def exMsgDb : MessagesDb :=
  { provisioned := true, threads := [exThreadBooking], messages := [exMsgBooking],
    next_thread_id := 2, next_message_id := 2 }

/-- Fixture: a provisioned messaging store with a general thread whose two
messages involve different participant pairs. -/
def exUserDb : MessagesDb :=
  { provisioned := true, threads := [exThreadGen], messages := [exMsgA, exMsgB],
    next_thread_id := 2, next_message_id := 3 }

/-- Fixture: a messaging store whose tables have not been provisioned. -/
def noSchemaDb : MessagesDb :=
  { provisioned := false, threads := [], messages := [], next_thread_id := 1,
    next_message_id := 1 }

/-- Fixture: the full request-handler environment for the booking thread. -/
def exEnv : Env :=
  { msg := exMsgDb, book := exDb1, resources := [exResource1] }

/-- Characterisation of `has_conflict` (no exclusion): true exactly when some
stored active booking on the resource overlaps the half-open interval. -/
theorem has_conflict_iff (db : BookingsDb) (r s e : Nat) :
    has_conflict db r s e none = true ↔
      ∃ b ∈ db.bookings, b.resource_id = r ∧
        (b.status = BookingStatus.pending ∨ b.status = BookingStatus.approved) ∧
        ¬(b.end_datetime ≤ s ∨ b.start_datetime ≥ e) := by
  simp [has_conflict, List.any_eq_true, truthy, Bool.and_eq_true, Bool.or_eq_true,
    beq_iff_eq, decide_eq_true_eq, not_or, and_assoc]

/-- C1: `create_booking` fails with `Conflict` exactly when some stored
booking on the same resource with status pending or approved overlaps the
requested half-open interval under `NOT (existing.end <= start OR
existing.start >= end)` — so a request starting at an existing booking's end
succeeds — and on a `Conflict` failure the stored bookings are unchanged. -/
theorem createBooking_conflict_iff_overlap (db : BookingsDb) (now rid qid s e : Nat)
    (ra : Bool) (notes : Option String) :
    ((create_booking db now rid qid s e ra notes).1 = .error .conflict ↔
      ∃ b ∈ db.bookings, b.resource_id = rid ∧
        (b.status = BookingStatus.pending ∨ b.status = BookingStatus.approved) ∧
        ¬(b.end_datetime ≤ s ∨ b.start_datetime ≥ e)) ∧
    ((create_booking db now rid qid s e ra notes).1 = .error .conflict →
      (create_booking db now rid qid s e ra notes).2 = db) := by
  constructor
  · rw [← has_conflict_iff]
    unfold create_booking
    by_cases hc : has_conflict db rid s e none = true
    · simp [hc]
    · simp [hc]
  · intro herr
    unfold create_booking at herr ⊢
    by_cases hc : has_conflict db rid s e none = true
    · simp [hc]
    · simp [hc] at herr

/-- Witness for C1: on the fixture store, a request [15, 25) overlapping the
approved booking [10, 20) fails with `Conflict` leaving the store unchanged,
while the touching request [20, 25) does not fail with `Conflict`. -/
theorem createBooking_conflict_iff_overlap_witness :
    (create_booking exDb1 0 1 8 15 25 true none).1 = .error .conflict ∧
    (create_booking exDb1 0 1 8 15 25 true none).2 = exDb1 ∧
    (create_booking exDb1 0 1 8 20 25 true none).1 ≠ .error .conflict := by
  have h := createBooking_conflict_iff_overlap exDb1 0 1 8 15 25 true none
  have htouch := createBooking_conflict_iff_overlap exDb1 0 1 8 20 25 true none
  have hconf : (create_booking exDb1 0 1 8 15 25 true none).1 = .error .conflict :=
    h.1.mpr ⟨exBooking1, by decide, by decide, by decide, by decide⟩
  refine ⟨hconf, h.2 hconf, fun hcontra => ?_⟩
  have := htouch.1.mp hcontra
  revert this
  decide

/-- C2 counterexample: the engine itself (`bookings_dao.create_booking`)
performs no interval validation: called directly with start 5 ≥ end 3 on an
empty store it succeeds and persists a booking row. -/
theorem createBooking_accepts_inverted_interval :
    5 ≥ 3 ∧
    (create_booking emptyBookingsDb 0 1 1 5 3 true none).1 =
      .ok (some { booking_id := 1, resource_id := 1, requester_id := 1,
                  start_datetime := 5, end_datetime := 3,
                  status := BookingStatus.pending, approval_notes := none,
                  created_at := 0, updated_at := 0 }) ∧
    (create_booking emptyBookingsDb 0 1 1 5 3 true none).2.bookings ≠ [] := by
  refine ⟨by decide, rfl, by decide⟩

/-- C2 (amended): the `start < end` validation is enforced by the request
handler `controllers/bookings.create`, which fails with the interval
validation message before calling the engine whenever start ≥ end, leaving
the bookings store unchanged; the engine itself performs no such check. -/
theorem bookingsCreate_rejects_inverted_interval (env : Env) (now uid : Nat)
    (adm : Bool) (rid s e : Nat) (resource : Resource)
    (hres : get_resource_by_id env.resources rid true = some resource)
    (harch : resource.status ≠ "archived")
    (hdraft : ¬(resource.status = "draft" ∧ resource.owner_id ≠ uid ∧ adm = false))
    (hse : s ≥ e) :
    bookings_create env now uid adm rid s e = (.invalidInterval, env.book) := by
  unfold bookings_create
  rw [hres]
  simp only [if_neg harch, if_neg hdraft, if_pos hse]

/-- Witness for the amended C2: on the fixture environment the handler
rejects the inverted request [5, 3) on resource 1 without writing. -/
theorem bookingsCreate_rejects_inverted_interval_witness :
    get_resource_by_id exEnv.resources 1 true = some exResource1 ∧
    bookings_create exEnv 0 7 false 1 5 3 = (.invalidInterval, exEnv.book) :=
  ⟨by decide,
    bookingsCreate_rejects_inverted_interval exEnv 0 7 false 1 5 3 exResource1
      (by decide) (by decide) (by decide) (by decide)⟩

/-- C3: on a provisioned store, `get_messages` returns exactly the thread's
messages (a permutation of the stored rows with that thread id) in
non-decreasing timestamp order, and `get_messages_since` returns exactly
those with timestamp strictly greater than the bound, also ascending. -/
theorem getMessages_ordering (db : MessagesDb) (tid t : Nat)
    (hp : db.provisioned = true) :
    (∃ ms, get_messages db tid = .ok ms ∧
      ms.Perm (db.messages.filter fun m => m.thread_id == tid) ∧
      List.Sorted tsLE ms) ∧
    (∃ ms, get_messages_since db tid t = .ok ms ∧
      ms.Perm (db.messages.filter fun m => m.thread_id == tid && decide (t < m.timestamp)) ∧
      List.Sorted tsLE ms) := by
  refine ⟨⟨List.insertionSort tsLE (db.messages.filter fun m => m.thread_id == tid),
      ?_, ?_, ?_⟩,
    ⟨List.insertionSort tsLE
        (db.messages.filter fun m => m.thread_id == tid && decide (t < m.timestamp)),
      ?_, ?_, ?_⟩⟩
  · simp [get_messages, hp]
  · exact List.perm_insertionSort tsLE _
  · exact List.sorted_insertionSort tsLE _
  · simp [get_messages_since, hp]
  · exact List.perm_insertionSort tsLE _
  · exact List.sorted_insertionSort tsLE _

/-- Witness for C3 at the two-message fixture thread with bound 10. -/
theorem getMessages_ordering_witness :
    exUserDb.provisioned = true ∧
    (∃ ms, get_messages_since exUserDb 1 10 = .ok ms ∧
      ms.Perm (exUserDb.messages.filter fun m => m.thread_id == 1 && decide (10 < m.timestamp)) ∧
      List.Sorted tsLE ms) :=
  ⟨rfl, (getMessages_ordering exUserDb 1 10 rfl).2⟩

/-- C4: `approve_booking` turns a stored pending row with the given id into
the approved row carrying the supplied notes, leaves every row that is not a
pending row with that id unchanged, signals no error (its result type has no
failure case), and a second approval is a no-op on the bookings table;
`reject_booking` acts symmetrically (pending to rejected). -/
theorem approveBooking_conditional_idempotent (db : BookingsDb)
    (now now2 bid aid aid2 : Nat) (notes notes2 : Option String) :
    (∀ b ∈ db.bookings, b.booking_id = bid → b.status = BookingStatus.pending →
      { b with status := BookingStatus.approved, approval_notes := notes, updated_at := now }
        ∈ (approve_booking db now bid aid notes).bookings) ∧
    (∀ b ∈ db.bookings, ¬(b.booking_id = bid ∧ b.status = BookingStatus.pending) →
      b ∈ (approve_booking db now bid aid notes).bookings) ∧
    ((approve_booking (approve_booking db now bid aid notes) now2 bid aid2 notes2).bookings
      = (approve_booking db now bid aid notes).bookings) ∧
    (∀ b ∈ db.bookings, b.booking_id = bid → b.status = BookingStatus.pending →
      { b with status := BookingStatus.rejected, approval_notes := notes, updated_at := now }
        ∈ (reject_booking db now bid aid notes).bookings) ∧
    (∀ b ∈ db.bookings, ¬(b.booking_id = bid ∧ b.status = BookingStatus.pending) →
      b ∈ (reject_booking db now bid aid notes).bookings) := by
  refine ⟨?_, ?_, ?_, ?_, ?_⟩
  · intro b hb h1 h2
    have hmem := List.mem_map_of_mem (approve_update now bid notes) hb
    rwa [show approve_update now bid notes b =
        { b with status := BookingStatus.approved, approval_notes := notes, updated_at := now }
      from if_pos ⟨h1, h2⟩] at hmem
  · intro b hb hneg
    have hmem := List.mem_map_of_mem (approve_update now bid notes) hb
    rwa [show approve_update now bid notes b = b from if_neg hneg] at hmem
  · show (db.bookings.map (approve_update now bid notes)).map (approve_update now2 bid notes2)
      = db.bookings.map (approve_update now bid notes)
    rw [List.map_map]
    refine List.map_congr_left fun b _ => ?_
    show approve_update now2 bid notes2 (approve_update now bid notes b)
      = approve_update now bid notes b
    by_cases h : b.booking_id = bid ∧ b.status = BookingStatus.pending
    · rw [show approve_update now bid notes b =
          { b with status := BookingStatus.approved, approval_notes := notes, updated_at := now }
        from if_pos h]
      exact if_neg (by simp)
    · rw [show approve_update now bid notes b = b from if_neg h]
      exact if_neg h
  · intro b hb h1 h2
    have hmem := List.mem_map_of_mem (reject_update now bid notes) hb
    rwa [show reject_update now bid notes b =
        { b with status := BookingStatus.rejected, approval_notes := notes, updated_at := now }
      from if_pos ⟨h1, h2⟩] at hmem
  · intro b hb hneg
    have hmem := List.mem_map_of_mem (reject_update now bid notes) hb
    rwa [show reject_update now bid notes b = b from if_neg hneg] at hmem

/-- Witness for C4 on the fixture store: the pending booking 2 becomes
approved with the notes, the approved booking 1 is untouched, and a second
approval changes nothing. -/
theorem approveBooking_conditional_idempotent_witness :
    { exBooking2 with
        status := BookingStatus.approved
        approval_notes := some "ok"
        updated_at := 5 } ∈ (approve_booking exDb1 5 2 9 (some "ok")).bookings ∧
    exBooking1 ∈ (approve_booking exDb1 5 2 9 (some "ok")).bookings ∧
    (approve_booking (approve_booking exDb1 5 2 9 (some "ok")) 6 2 9 none).bookings
      = (approve_booking exDb1 5 2 9 (some "ok")).bookings := by
  have h := approveBooking_conditional_idempotent exDb1 5 6 2 9 9 (some "ok") none
  exact ⟨h.1 exBooking2 (by decide) (by decide) (by decide),
    h.2.1 exBooking1 (by decide) (by decide),
    h.2.2.1⟩

/-- Reading back `cursor.lastrowid` right after the insert returns the
inserted row, because every pre-existing rowid is smaller than the fresh one. -/
theorem get_booking_by_id_fresh (db : BookingsDb) (row : Booking) (n2 : Nat)
    (hwf : db.WF) (hid : row.booking_id = db.next_booking_id) :
    get_booking_by_id { db with bookings := db.bookings ++ [row], next_booking_id := n2 }
      db.next_booking_id = some row := by
  unfold get_booking_by_id
  show (db.bookings ++ [row]).find? (fun b => b.booking_id == db.next_booking_id) = some row
  rw [List.find?_append]
  have h1 : db.bookings.find? (fun b => b.booking_id == db.next_booking_id) = none := by
    rw [List.find?_eq_none]
    intro b hb
    simp only [beq_iff_eq]
    exact Nat.ne_of_lt (hwf b hb).2
  rw [h1]
  simp [hid]

/-- C5: a conflict-free `create_booking` call on a well-formed store returns
the fully persisted row: its status is `pending` exactly when approval is
required and `approved` otherwise, its remaining fields are the inputs, and
the returned row is stored. -/
theorem createBooking_initial_status (db : BookingsDb) (now rid qid s e : Nat)
    (ra : Bool) (notes : Option String) (hwf : db.WF)
    (hok : has_conflict db rid s e none = false) :
    ∃ b, (create_booking db now rid qid s e ra notes).1 = .ok (some b) ∧
      b.status = (if ra then BookingStatus.pending else BookingStatus.approved) ∧
      b.resource_id = rid ∧ b.requester_id = qid ∧ b.start_datetime = s ∧
      b.end_datetime = e ∧ b.approval_notes = notes ∧
      b ∈ (create_booking db now rid qid s e ra notes).2.bookings := by
  have hc : ¬ (has_conflict db rid s e none = true) := by simp [hok]
  refine ⟨{ booking_id := db.next_booking_id
            resource_id := rid
            requester_id := qid
            start_datetime := s
            end_datetime := e
            status := if ra then BookingStatus.pending else BookingStatus.approved
            approval_notes := notes
            created_at := now
            updated_at := now },
    ?_, rfl, rfl, rfl, rfl, rfl, rfl, ?_⟩
  · show (create_booking db now rid qid s e ra notes).1 = _
    unfold create_booking
    rw [if_neg hc]
    exact congrArg Except.ok (get_booking_by_id_fresh db _ _ hwf rfl)
  · show _ ∈ (create_booking db now rid qid s e ra notes).2.bookings
    unfold create_booking
    rw [if_neg hc]
    exact List.mem_append_right _ (List.mem_singleton.mpr rfl)

/-- Witness for C5: creating [20, 25) on resource 1 of the fixture store with
`requires_approval = false` yields a stored approved row. -/
theorem createBooking_initial_status_witness :
    exDb1.WF ∧ has_conflict exDb1 1 20 25 none = false ∧
    (∃ b, (create_booking exDb1 0 1 8 20 25 false (some "Auto-approved")).1 = .ok (some b) ∧
      b.status = (if false then BookingStatus.pending else BookingStatus.approved) ∧
      b.resource_id = 1 ∧ b.requester_id = 8 ∧ b.start_datetime = 20 ∧
      b.end_datetime = 25 ∧ b.approval_notes = some "Auto-approved" ∧
      b ∈ (create_booking exDb1 0 1 8 20 25 false (some "Auto-approved")).2.bookings) :=
  ⟨by decide, by decide,
    createBooking_initial_status exDb1 0 1 8 20 25 false (some "Auto-approved")
      (by decide) (by decide)⟩

/-- C7: when the messaging tables are not provisioned,
`list_threads_for_admin` fails with the distinguished `SchemaUnavailable`
error, and the admin dashboard read site degrades to an empty thread list
with a warning instead of propagating the failure. -/
theorem listThreadsForAdmin_schema_degrade (db : MessagesDb)
    (hp : db.provisioned = false) :
    list_threads_for_admin db = .error .schemaUnavailable ∧
    admin_dashboard_threads db = ([], true) := by
  have h1 : list_threads_for_admin db = .error .schemaUnavailable := by
    simp [list_threads_for_admin, hp]
  exact ⟨h1, by simp [admin_dashboard_threads, h1]⟩

/-- Witness for C7 on the unprovisioned fixture store. -/
theorem listThreadsForAdmin_schema_degrade_witness :
    noSchemaDb.provisioned = false ∧
    list_threads_for_admin noSchemaDb = .error .schemaUnavailable ∧
    admin_dashboard_threads noSchemaDb = ([], true) :=
  ⟨rfl, listThreadsForAdmin_schema_degrade noSchemaDb rfl⟩

/-- C8: `cancel_booking` and `complete_booking` are unconditional and
error-free: for a stored row with the target id — whatever its status,
terminal ones included — the result stores the same row with only `status`
(to cancelled resp. completed) and `updated_at` changed; every row with a
different id is kept as is, and no row is added or removed. -/
theorem cancelComplete_unconditional_frame (db : BookingsDb) (now bid : Nat) :
    (cancel_booking db now bid).bookings.length = db.bookings.length ∧
    (∀ b ∈ db.bookings, b.booking_id = bid →
      { b with status := BookingStatus.cancelled, updated_at := now }
        ∈ (cancel_booking db now bid).bookings) ∧
    (∀ b ∈ db.bookings, b.booking_id ≠ bid → b ∈ (cancel_booking db now bid).bookings) ∧
    (complete_booking db now bid).bookings.length = db.bookings.length ∧
    (∀ b ∈ db.bookings, b.booking_id = bid →
      { b with status := BookingStatus.completed, updated_at := now }
        ∈ (complete_booking db now bid).bookings) ∧
    (∀ b ∈ db.bookings, b.booking_id ≠ bid → b ∈ (complete_booking db now bid).bookings) := by
  refine ⟨List.length_map _ _, ?_, ?_, List.length_map _ _, ?_, ?_⟩
  · intro b hb h1
    have hmem := List.mem_map_of_mem (status_update BookingStatus.cancelled now bid) hb
    rwa [show status_update BookingStatus.cancelled now bid b =
        { b with status := BookingStatus.cancelled, updated_at := now } from if_pos h1] at hmem
  · intro b hb h1
    have hmem := List.mem_map_of_mem (status_update BookingStatus.cancelled now bid) hb
    rwa [show status_update BookingStatus.cancelled now bid b = b from if_neg h1] at hmem
  · intro b hb h1
    have hmem := List.mem_map_of_mem (status_update BookingStatus.completed now bid) hb
    rwa [show status_update BookingStatus.completed now bid b =
        { b with status := BookingStatus.completed, updated_at := now } from if_pos h1] at hmem
  · intro b hb h1
    have hmem := List.mem_map_of_mem (status_update BookingStatus.completed now bid) hb
    rwa [show status_update BookingStatus.completed now bid b = b from if_neg h1] at hmem

/-- Witness for C8: cancelling the terminal completed booking 3 of the
fixture store flips only its status and timestamp, and keeps booking 1. -/
theorem cancelComplete_unconditional_frame_witness :
    (cancel_booking exDb1 9 3).bookings.length = exDb1.bookings.length ∧
    { exBooking3 with
        status := BookingStatus.cancelled
        updated_at := 9 } ∈ (cancel_booking exDb1 9 3).bookings ∧
    exBooking1 ∈ (cancel_booking exDb1 9 3).bookings := by
  have h := cancelComplete_unconditional_frame exDb1 9 3
  exact ⟨h.1, h.2.1 exBooking3 (by decide) (by decide),
    h.2.2.1 exBooking1 (by decide) (by decide)⟩

/-- C6: for a booking-context thread whose context id resolves to a stored
booking on a stored resource (store well-formed, so rowids are positive as
SQLite assigns them), the derived participant set contains the booking's
requester and the resource's owner on top of every historical sender and
receiver of the thread's messages. -/
theorem threadParticipants_booking_complete (env : Env) (tid cid : Nat)
    (thread : Thread) (booking : Booking) (resource : Resource)
    (hwf : env.book.WF)
    (hthread : get_thread env.msg tid = .ok (some thread))
    (hctx : thread.context_type = "booking")
    (hcid : thread.context_id = some cid)
    (hbooking : get_booking_by_id env.book cid = some booking)
    (hres : get_resource_by_id env.resources booking.resource_id true = some resource) :
    ∃ ps, thread_participants env tid = .ok ps ∧
      booking.requester_id ∈ ps ∧ resource.owner_id ∈ ps ∧
      ∀ ms, get_messages env.msg tid = .ok ms →
        ∀ m ∈ ms, m.sender_id ∈ ps ∧ m.receiver_id ∈ ps := by
  cases hpv : env.msg.provisioned with
  | false =>
    unfold get_thread at hthread
    rw [hpv] at hthread
    simp at hthread
  | true =>
    have hbmem : booking ∈ env.book.bookings := List.mem_of_find?_eq_some hbooking
    have hbid : booking.booking_id = cid := by
      have := List.find?_some hbooking
      simpa [beq_iff_eq] using this
    have hcid0 : cid ≠ 0 := by
      have hpos := (hwf booking hbmem).1
      omega
    have htr : truthy (some cid) = true := by simp [truthy, hcid0]
    have hms : get_messages env.msg tid =
        .ok (List.insertionSort tsLE (env.msg.messages.filter fun m => m.thread_id == tid)) := by
      simp [get_messages, hpv]
    simp only [thread_participants, hthread, hms]
    rw [hcid]
    rw [if_neg (fun h => by rw [hctx] at h; exact absurd h.1 (by decide))]
    rw [if_pos ⟨hctx, htr⟩]
    simp only [Option.getD_some, hbooking, hres]
    refine ⟨_, rfl, Finset.mem_insert_of_mem (Finset.mem_insert_self _ _),
      Finset.mem_insert_self _ _, ?_⟩
    intro ms2 hms2 m hm
    have hEq := (Except.ok.inj hms2).symm
    subst hEq
    constructor
    · exact Finset.mem_insert_of_mem (Finset.mem_insert_of_mem (Finset.mem_union_left _
        (List.mem_toFinset.mpr (List.mem_map_of_mem Message.sender_id hm))))
    · exact Finset.mem_insert_of_mem (Finset.mem_insert_of_mem (Finset.mem_union_right _
        (List.mem_toFinset.mpr (List.mem_map_of_mem Message.receiver_id hm))))

/-- Witness for C6 on the fixture environment: requester 7 and owner 9 are
derived participants of the booking thread even though only users 3 and 4
have exchanged messages. -/
theorem threadParticipants_booking_complete_witness :
    ∃ ps, thread_participants exEnv 1 = .ok ps ∧
      exBooking1.requester_id ∈ ps ∧ exResource1.owner_id ∈ ps ∧
      ∀ ms, get_messages exEnv.msg 1 = .ok ms →
        ∀ m ∈ ms, m.sender_id ∈ ps ∧ m.receiver_id ∈ ps :=
  threadParticipants_booking_complete exEnv 1 1 exThreadBooking exBooking1 exResource1
    (by decide) rfl rfl rfl rfl rfl

/-- C9 counterexample: `post_message` itself performs no content validation:
called directly with empty content it succeeds and appends the message. -/
theorem postMessage_appends_empty_content :
    ("" : String).length = 0 ∧
    (post_message exMsgDb 5 1 1 2 "").1 =
      .ok (some { message_id := 2
                  thread_id := 1
                  sender_id := 1
                  receiver_id := 2
                  content := ""
                  timestamp := 5 }) ∧
    (post_message exMsgDb 5 1 1 2 "").2.messages.length = exMsgDb.messages.length + 1 := by
  refine ⟨by decide, rfl, rfl⟩

/-- C9 (amended): the non-empty/at-most-2000-characters bound on message
content is enforced by the request handler's form (`MessageForm`), not by
`post_message`: a reply whose content is empty or longer than 2000 characters
never reaches `post_message`, so no message is appended by the reply route. -/
theorem messagingThread_rejects_invalid_content (env : Env) (now uid : Nat)
    (adm : Bool) (tid : Nat) (content : String)
    (h : content = "" ∨ 2000 < content.length) :
    (messaging_thread_post env now uid adm tid content).2.messages = env.msg.messages := by
  have hv : message_form_validate content = false := by
    rcases h with h | h
    · simp [message_form_validate, h]
    · have hnle : ¬ (content.length ≤ 2000) := by omega
      simp [message_form_validate, hnle]
  unfold messaging_thread_post
  split
  · rfl
  · rfl
  · split
    · rfl
    · rfl
    · split
      · rfl
      · split
        · rfl
        · split
          · rename_i hvt
            rw [hv] at hvt
            simp at hvt
          · rfl

/-- Witness for the amended C9: an empty reply on the fixture environment
leaves the message table untouched. -/
theorem messagingThread_rejects_invalid_content_witness :
    (("" : String) = "" ∨ 2000 < ("" : String).length) ∧
    (messaging_thread_post exEnv 5 3 false 1 "").2.messages = exEnv.msg.messages :=
  ⟨Or.inl rfl, messagingThread_rejects_invalid_content exEnv 5 3 false 1 "" (Or.inl rfl)⟩

/-- C10 counterexample: on a thread whose two messages involve different
pairs, `list_threads_for_user 1` reports last activity 10 and message count
1 — the aggregates of user 1's own messages — although the thread's latest
message timestamp is 20 and its full message count is 2. -/
theorem listThreadsForUser_user_scoped_aggregates :
    list_threads_for_user exUserDb 1 =
      .ok [{ thread := exThreadGen, last_activity := some 10, message_count := 1 }] ∧
    (exUserDb.messages.filter fun m => m.thread_id == 1).length = 2 ∧
    max_timestamp (exUserDb.messages.filter fun m => m.thread_id == 1) = some 20 := by
  refine ⟨rfl, rfl, rfl⟩

/-- C10 (amended): on a provisioned store, `list_threads_for_user` returns
exactly the threads in which the user appears as sender or receiver of at
least one message, each paired with the latest timestamp and the count of
the user's own messages in that thread (not the thread's full aggregates),
ordered by that user-scoped last activity descending. -/
theorem listThreadsForUser_characterisation (db : MessagesDb) (uid : Nat)
    (hp : db.provisioned = true) :
    ∃ rows, list_threads_for_user db uid = .ok rows ∧
      List.Sorted activityLE rows ∧
      rows.Perm (db.threads.filterMap (user_thread_summary db uid)) ∧
      (∀ row ∈ rows, ∃ t ∈ db.threads, row.thread = t ∧
        row.last_activity = max_timestamp (db.messages.filter (user_msg_in_thread uid t)) ∧
        row.message_count = (db.messages.filter (user_msg_in_thread uid t)).length) ∧
      (∀ t ∈ db.threads,
        ((∃ m ∈ db.messages, user_msg_in_thread uid t m = true) ↔
          ∃ row ∈ rows, row.thread = t)) := by
  refine ⟨List.insertionSort activityLE (db.threads.filterMap (user_thread_summary db uid)),
    by simp [list_threads_for_user, hp], List.sorted_insertionSort activityLE _,
    List.perm_insertionSort activityLE _, ?_, ?_⟩
  · intro row hrow
    rw [List.mem_insertionSort] at hrow
    obtain ⟨t, ht, hsum⟩ := List.mem_filterMap.mp hrow
    refine ⟨t, ht, ?_⟩
    unfold user_thread_summary at hsum
    by_cases hemp : (db.messages.filter (user_msg_in_thread uid t)).isEmpty = true
    · rw [if_pos hemp] at hsum
      exact absurd hsum (by simp)
    · rw [if_neg hemp] at hsum
      have hrow_eq := Option.some.inj hsum
      rw [← hrow_eq]
      exact ⟨rfl, rfl, rfl⟩
  · intro t ht
    constructor
    · rintro ⟨m, hm, hcond⟩
      have hne : (db.messages.filter (user_msg_in_thread uid t)) ≠ [] := by
        intro hnil
        have hmem : m ∈ db.messages.filter (user_msg_in_thread uid t) :=
          List.mem_filter.mpr ⟨hm, hcond⟩
        rw [hnil] at hmem
        exact absurd hmem (List.not_mem_nil m)
      refine ⟨{ thread := t
                last_activity := max_timestamp (db.messages.filter (user_msg_in_thread uid t))
                message_count := (db.messages.filter (user_msg_in_thread uid t)).length },
        ?_, rfl⟩
      rw [List.mem_insertionSort]
      exact List.mem_filterMap.mpr ⟨t, ht,
        by unfold user_thread_summary; rw [if_neg (by simpa using hne)]⟩
    · rintro ⟨row, hrow, hthread⟩
      rw [List.mem_insertionSort] at hrow
      obtain ⟨t2, ht2, hsum⟩ := List.mem_filterMap.mp hrow
      unfold user_thread_summary at hsum
      by_cases hemp : (db.messages.filter (user_msg_in_thread uid t2)).isEmpty = true
      · rw [if_pos hemp] at hsum
        exact absurd hsum (by simp)
      · rw [if_neg hemp] at hsum
        have hrow_eq := Option.some.inj hsum
        have h1 : row.thread = t2 := by rw [← hrow_eq]
        have ht2t : t2 = t := h1.symm.trans hthread
        subst ht2t
        obtain ⟨m, hmem⟩ := List.exists_mem_of_ne_nil
          (db.messages.filter (user_msg_in_thread uid t2))
          (fun hnil => hemp (by rw [hnil]; rfl))
        obtain ⟨hm, hcond⟩ := List.mem_filter.mp hmem
        exact ⟨m, hm, hcond⟩

/-- Witness for the amended C10 on the fixture store for user 1. -/
theorem listThreadsForUser_characterisation_witness :
    exUserDb.provisioned = true ∧
    (∃ rows, list_threads_for_user exUserDb 1 = .ok rows ∧
      List.Sorted activityLE rows ∧
      rows.Perm (exUserDb.threads.filterMap (user_thread_summary exUserDb 1)) ∧
      (∀ row ∈ rows, ∃ t ∈ exUserDb.threads, row.thread = t ∧
        row.last_activity = max_timestamp (exUserDb.messages.filter (user_msg_in_thread 1 t)) ∧
        row.message_count = (exUserDb.messages.filter (user_msg_in_thread 1 t)).length) ∧
      (∀ t ∈ exUserDb.threads,
        ((∃ m ∈ exUserDb.messages, user_msg_in_thread 1 t m = true) ↔
          ∃ row ∈ rows, row.thread = t))) :=
  ⟨rfl, listThreadsForUser_characterisation exUserDb 1 rfl⟩
